import Mathlib

/-!
Verification of the target-resolution and context-lifecycle core of the
chrome CLI (package lib, plus the launch and monitoring commands).

The Go source is shallowly embedded: each Go function that the claims
mention is translated into a Lean definition of the same name, with the
effectful collaborators (the HTTP directory fetch, the richer chromedp
enumeration, the process environment, the endpoint probe) passed in as
explicit parameters.  Fallible Go functions returning (value, error) are
embedded as Except String values.  The Go standard-library string helpers
that the source calls are embedded as structural functions on the
character list of a String, so that every definition evaluates inside the
kernel.
-/

namespace Chrome

/-! ### Go standard-library string helpers used by the source -/

/-- strings.TrimSpace: drop whitespace characters from both ends. -/
def goTrimSpace (s : String) : String :=
  ⟨((s.data.dropWhile Char.isWhitespace).reverse.dropWhile Char.isWhitespace).reverse⟩

/-- strings.ToLower: lower-case every character. -/
def goToLower (s : String) : String :=
  ⟨s.data.map Char.toLower⟩

/-- strings.HasPrefix: the second string is a leading segment of the first. -/
def goStartsWith (s pre : String) : Bool :=
  pre.data.isPrefixOf s.data

/-- strings.Join: concatenate with a separator between consecutive elements. -/
def goJoin (elems : List String) (sep : String) : String :=
  match elems with
  | [] => ""
  | x :: xs => xs.foldl (fun acc e => acc ++ sep ++ e) x

/-- Go fmt %q applied to a selector string, for strings without characters
that need escaping (the only use sites quote a user-supplied URL prefix). -/
def goQuote (s : String) : String := "\"" ++ s ++ "\""

/-! ### Data model (package lib) -/

/-- One entry of the /json/list target directory (Go struct ChromeTarget). -/
structure ChromeTarget where
  id : String
  type : String
  url : String
  title : String
  webSocketDebuggerURL : String
  deriving DecidableEq

/-- One entry of the richer chromedp.Targets() enumeration (cdproto
target.Info, restricted to the fields the source reads: TargetID, Type,
Attached).  The Go slice holds pointers, so an entry may be nil; the
embedding wraps entries in Option accordingly. -/
structure TargetInfo where
  targetID : String
  type : String
  attached : Bool
  deriving DecidableEq

/-- Go const ChromeURL = "http://localhost:9222". -/
def ChromeURL : String := "http://localhost:9222"

/-! ### Target directory filtering and matching (package lib) -/

/-- Embeds filterPageTargets: keep only targets of type "page" whose URL does
not start with "chrome://" or "chrome-untrusted://"; the recursion mirrors the
Go loop (skip via continue, append otherwise), preserving order. -/
def filterPageTargets : List ChromeTarget → List ChromeTarget
  | [] => []
  | t :: rest =>
    if t.type ≠ "page" then
      filterPageTargets rest
    else if goStartsWith t.url "chrome://" || goStartsWith t.url "chrome-untrusted://" then
      filterPageTargets rest
    else
      t :: filterPageTargets rest

/-- The predicate filterPageTargets keeps, as a Bool-valued function. -/
def isSelectablePage (t : ChromeTarget) : Bool :=
  t.type == "page" && !(goStartsWith t.url "chrome://") && !(goStartsWith t.url "chrome-untrusted://")

/-- The matching loop of matchTargetBySelector: first target whose lowercased
URL starts with the lowercased selector, returning its id. -/
def matchTargetLoop (selectorLower : String) : List ChromeTarget → String
  | [] => ""
  | t :: rest =>
    if goStartsWith (goToLower t.url) selectorLower then t.id
    else matchTargetLoop selectorLower rest

/-- Embeds matchTargetBySelector: empty selector never matches; otherwise the
first page whose URL starts with the selector, case-insensitively. -/
def matchTargetBySelector (pages : List ChromeTarget) (selector : String) : String :=
  if selector = "" then ""
  else matchTargetLoop (goToLower selector) pages

/-- Membership test of the pageSet map built by selectPreferredFromInfo. -/
def pageSetContains (pages : List ChromeTarget) (id : String) : Bool :=
  pages.any fun p => p.id == id

/-- First loop of selectPreferredFromInfo: first non-nil info of type "page"
whose id is in the page set and which is attached. -/
def attachedInfoLoop (pages : List ChromeTarget) : List (Option TargetInfo) → Option String
  | [] => none
  | none :: rest => attachedInfoLoop pages rest
  | some info :: rest =>
    if info.type ≠ "page" then attachedInfoLoop pages rest
    else if !(pageSetContains pages info.targetID) then attachedInfoLoop pages rest
    else if info.attached then some info.targetID
    else attachedInfoLoop pages rest

/-- Second loop of selectPreferredFromInfo: first non-nil info of type "page"
whose id is in the page set, attached or not. -/
def anyPageInfoLoop (pages : List ChromeTarget) : List (Option TargetInfo) → Option String
  | [] => none
  | none :: rest => anyPageInfoLoop pages rest
  | some info :: rest =>
    if info.type ≠ "page" then anyPageInfoLoop pages rest
    else if pageSetContains pages info.targetID then some info.targetID
    else anyPageInfoLoop pages rest

/-- Embeds selectPreferredFromInfo: with a nil-safe enumeration, prefer the
first attached page info whose id is among the filtered pages, then the first
such page info at all, else the empty id. -/
def selectPreferredFromInfo (pages : List ChromeTarget) (infos : List (Option TargetInfo)) : String :=
  if pages.isEmpty then ""
  else
    match attachedInfoLoop pages infos with
    | some id => id
    | none =>
      match anyPageInfoLoop pages infos with
      | some id => id
      | none => ""

/-! ### ResolveTarget (package lib) -/

/-- The part of ResolveTarget after the selector-priority chain (everything
from the FetchTargets call on), parameterised by the already-resolved selector
string and by the results of the two enumeration calls it may perform. -/
def resolveTargetSelected (selected : String)
    (fetched : Except String (List ChromeTarget))
    (infos : Except String (List (Option TargetInfo))) :
    Except String (String × String) :=
  match fetched with
  | .error e => .error e
  | .ok targets =>
    match filterPageTargets targets with
    | [] => .ok ("", "no page targets")
    | p0 :: rest =>
      if selected ≠ "" then
        if matchTargetBySelector (p0 :: rest) selected ≠ "" then
          .ok (matchTargetBySelector (p0 :: rest) selected, "matched selector " ++ goQuote selected)
        else
          .ok ("", "no tab URL starts with " ++ goQuote selected ++ ". Available: "
            ++ goJoin ((p0 :: rest).map fun p => p.url) ", ")
      else
        match infos with
        | .ok is =>
          if selectPreferredFromInfo (p0 :: rest) is ≠ "" then
            .ok (selectPreferredFromInfo (p0 :: rest) is, "preferred attached tab")
          else .ok (p0.id, "first page tab")
        | .error _ => .ok (p0.id, "first page tab")

/-- Embeds ResolveTarget.  The collaborators are explicit parameters:
env is the override map (a nil Go map becomes none; a Go map lookup of a
missing key yields "", so a present map is a total function into strings),
osEnv is the value of os.Getenv "CHROME_TARGET", fetched is the outcome of
FetchTargets, and infos the outcome of fetchTargetInfos. -/
def ResolveTarget (selector : String) (env : Option (String → String)) (osEnv : String)
    (fetched : Except String (List ChromeTarget))
    (infos : Except String (List (Option TargetInfo))) :
    Except String (String × String) :=
  let selected0 := goTrimSpace selector
  let selected1 :=
    if selected0 = "" then
      match env with
      | some m => goTrimSpace (m "CHROME_TARGET")
      | none => selected0
    else selected0
  let selected2 := if selected1 = "" then goTrimSpace osEnv else selected1
  resolveTargetSelected selected2 fetched infos

/-! ### Context lifecycle (package lib) -/

/-- The teardown primitives a release closure of this code base may invoke.
The remote branch of SetupContextWithTimeout builds a combined cancel that
calls the allocator cancel and the base context cancel, and deliberately
discards the chromedp tab context cancel; the headless branch calls all
three. -/
inductive TeardownOp
  | allocCancel
  | baseCtxCancel
  | browserCtxCancel
  deriving DecidableEq

/-- Observable state of the remote browser together with the local
bookkeeping resources of one CLI invocation. -/
structure SessionState where
  tabs : List ChromeTarget
  boundTarget : String
  allocatorOpen : Bool
  baseCtxAlive : Bool
  deriving DecidableEq

/-- Modelled from the spec: the effect of each teardown primitive.  The
chromedp library and the Go context package are collaborators outside this
repository; per the spec, releasing a remote-mode context only releases
local bookkeeping resources such as the underlying socket or allocator,
while cancelling the chromedp tab context is the operation that would close
the bound tab. -/
def applyTeardown (s : SessionState) (op : TeardownOp) : SessionState :=
  match op with
  | .allocCancel => { s with allocatorOpen := false }
  | .baseCtxCancel => { s with baseCtxAlive := false }
  | .browserCtxCancel => { s with tabs := s.tabs.filter fun t => t.id != s.boundTarget }

/-- Run a release closure, i.e. its list of teardown primitives in order. -/
def applyTeardowns (s : SessionState) (ops : List TeardownOp) : SessionState :=
  ops.foldl applyTeardown s

/-- Whether a teardown primitive touches only invocation-local bookkeeping. -/
def isLocalTeardown : TeardownOp → Bool
  | .allocCancel => true
  | .baseCtxCancel => true
  | .browserCtxCancel => false

/-- Result of the remote-mode branch of SetupContextWithTimeout: the bound
target (empty when resolution yielded nothing) and the ops of the returned
combined cancel function. -/
structure RemoteSetup where
  boundTarget : String
  releaseOps : List TeardownOp
  deriving DecidableEq

/-- Embeds the remote branch of SetupContextWithTimeout (IsChromeRunning
true): a remote allocator is created, the preferred target is resolved, a
chromedp context is created (pinned to the target when one resolved), and
the returned combined cancel calls allocCancel then the base cancel; the
chromedp context cancel function is deliberately not part of it. -/
def setupRemoteContext (resolvedID : String) : RemoteSetup :=
  { boundTarget := resolvedID
    releaseOps := [.allocCancel, .baseCtxCancel] }

/-- Model of a Go context as EnsureTargetContext inspects it:
chromedp.FromContext may return nil (outer none), or a chromedp Context
whose Target field may itself be nil (inner none) or carry a target id. -/
structure CdpCtx where
  fromContext : Option (Option String)
  deriving DecidableEq

/-- The externally visible steps EnsureTargetContext may take: the
IsChromeRunning HTTP probe, the ResolveTarget directory fetch and match,
and the creation of a new chromedp context pinned to a target. -/
inductive EnsureEffect
  | probeEndpoint
  | resolveSelector
  | newTabContext
  deriving DecidableEq

/-- Embeds EnsureTargetContext.  chromeRunning is the probe outcome, and
resolved is the outcome ResolveTarget would produce for the trimmed
selector; the result pairs the Go return value (context and release
closure, the closure being its list of teardown ops, so func() \x7b\x7d is [])
with the trace of externally visible steps taken. -/
def EnsureTargetContext (ctx : CdpCtx) (selector : String) (chromeRunning : Bool)
    (resolved : Except String (String × String)) :
    Except String (CdpCtx × List TeardownOp) × List EnsureEffect :=
  let sel := goTrimSpace selector
  if sel = "" then
    (.ok (ctx, []), [])
  else if !chromeRunning then
    (.error ("target selection requires Chrome on " ++ ChromeURL), [.probeEndpoint])
  else
    match resolved with
    | .error e => (.error e, [.probeEndpoint, .resolveSelector])
    | .ok (id, reason) =>
      if id = "" then
        (.error reason, [.probeEndpoint, .resolveSelector])
      else
        match ctx.fromContext with
        | some (some existingID) =>
          if existingID = id then
            (.ok (ctx, []), [.probeEndpoint, .resolveSelector])
          else
            (.ok ({ fromContext := some (some id) }, []),
              [.probeEndpoint, .resolveSelector, .newTabContext])
        | some none =>
          (.ok ({ fromContext := some (some id) }, []),
            [.probeEndpoint, .resolveSelector, .newTabContext])
        | none =>
          (.ok ({ fromContext := some (some id) }, []),
            [.probeEndpoint, .resolveSelector, .newTabContext])

/-! ### launch command (cmd/launch) -/

/-- The stderr diagnostics launchChrome can emit. -/
inductive LaunchMessage
  | alreadyRunning
  | chromeNotFound
  | logOpenError
  | launchError
  | metadataWarning
  | startupWarning
  deriving DecidableEq

/-- Exit code and stderr diagnostics of one run of the launch command. -/
structure LaunchOutcome where
  exitCode : Nat
  stderr : List LaunchMessage
  deriving DecidableEq

/-- Collaborator outcomes a run of launchChrome observes: the pre-launch
port probe, the findChrome executable search (empty string when nothing is
found), the log file open, cmd.Start, the per-poll endpoint probe, and the
instance metadata write. -/
structure LaunchEnv where
  alreadyRunning : Bool
  chromePath : String
  logOpenOk : Bool
  startOk : Bool
  probe : Nat → Bool
  metadataWriteOk : Bool

/-- The fixed attempt count of the post-launch polling loop
(for i := 0; i < 10; i++ with a 500ms sleep per attempt). -/
def launchPollAttempts : Nat := 10

/-- First polling attempt index at which the endpoint probe succeeds,
within the given remaining fuel; mirrors the launch wait loop. -/
def firstLiveAttempt (probe : Nat → Bool) : Nat → Nat → Option Nat
  | _, 0 => none
  | i, fuel + 1 => if probe i then some i else firstLiveAttempt probe (i + 1) fuel

/-- Embeds launchChrome (the port-flag variant of cmd/launch): the control
flow over the collaborator outcomes, recording exit code and stderr
diagnostics.  A normal return from the command function means the process
exits 0, since main calls the command function and then returns.  The
500ms sleeps are real time and are not modelled; only the bounded attempt
count is. -/
def launchChrome (env : LaunchEnv) : LaunchOutcome :=
  if env.alreadyRunning then
    { exitCode := 0, stderr := [.alreadyRunning] }
  else if env.chromePath = "" then
    { exitCode := 1, stderr := [.chromeNotFound] }
  else if !env.logOpenOk then
    { exitCode := 1, stderr := [.logOpenError] }
  else if !env.startOk then
    { exitCode := 1, stderr := [.launchError] }
  else
    match firstLiveAttempt env.probe 0 launchPollAttempts with
    | some _ =>
      if env.metadataWriteOk then { exitCode := 0, stderr := [] }
      else { exitCode := 0, stderr := [.metadataWarning] }
    | none => { exitCode := 0, stderr := [.startupWarning] }

/-! ### Monitoring event queue (cmd/console, cmd/network) -/

/-- Capacity of the buffered event channel of the monitoring commands:
make(chan ConsoleMessage, 100) and make(chan NetworkEvent, 100). -/
def monitorQueueCapacity : Nat := 100

/-- Embeds the producer step of the event listener: a send inside a select
statement with a default case on a buffered channel of capacity 100
enqueues when the buffer has room and otherwise drops the event; it never
blocks the dispatch path. -/
def enqueueEvent {E : Type} (q : List E) (e : E) : List E :=
  if q.length < monitorQueueCapacity then q ++ [e] else q

/-- Producer steps for a whole arrival sequence, oldest first, with no
consumer draining in between. -/
def enqueueAll {E : Type} (q : List E) (es : List E) : List E :=
  es.foldl enqueueEvent q

/-- The step relation of the bounded queue: the producer either enqueues
the event (below capacity) or drops it (at capacity). -/
inductive ProducerStep {E : Type} : List E → E → List E → Prop
  | enqueue (q : List E) (e : E) (h : q.length < monitorQueueCapacity) :
      ProducerStep q e (q ++ [e])
  | drop (q : List E) (e : E) (h : monitorQueueCapacity ≤ q.length) :
      ProducerStep q e q

/-! ### Specification-side helper definitions used in claim statements -/

/-- The id of the first element of a page list whose URL, compared
case-insensitively, starts with the given selector, or the empty string if
no element matches.  This is the matching rule the spec describes, stated
via List.find?. -/
def firstUrlMatchId (pages : List ChromeTarget) (sel : String) : String :=
  match pages.find? (fun t => goStartsWith (goToLower t.url) (goToLower sel)) with
  | some t => t.id
  | none => ""

/-- An entry of the richer enumeration is page-like when it is non-nil, of
type "page", and its id is the id of an element of the filtered directory
pages (enumeration entries are judged against the directory, which is
where the internal-scheme filtering happens). -/
def isPageLikeInfo (pages : List ChromeTarget) (o : Option TargetInfo) : Bool :=
  match o with
  | some i => i.type == "page" && pageSetContains pages i.targetID
  | none => false

/-- A page-like enumeration entry that is reported as already attached. -/
def isAttachedPageLikeInfo (pages : List ChromeTarget) (o : Option TargetInfo) : Bool :=
  match o with
  | some i => i.type == "page" && pageSetContains pages i.targetID && i.attached
  | none => false

/-! ### Concrete fixtures for witnesses and counterexamples -/

/-- A single ordinary page tab. -/
def cexTargetX : ChromeTarget :=
  { id := "1", type := "page", url := "http://x.com", title := "", webSocketDebuggerURL := "" }

/-- A directory holding just that tab. -/
def cexTargetsX : List ChromeTarget := [cexTargetX]

/-- The two-tab directory of the spec example for case-insensitive
prefix matching. -/
def specExampleTargets : List ChromeTarget :=
  [{ id := "1", type := "page", url := "http://x.com/foo", title := "", webSocketDebuggerURL := "" },
   { id := "2", type := "page", url := "http://y.com/bar", title := "", webSocketDebuggerURL := "" }]

/-- Demo page tabs for the attached-preference witness. -/
def demoTab1 : ChromeTarget :=
  { id := "1", type := "page", url := "http://x.com", title := "", webSocketDebuggerURL := "" }

/-- Second demo page tab. -/
def demoTab2 : ChromeTarget :=
  { id := "2", type := "page", url := "http://y.com", title := "", webSocketDebuggerURL := "" }

/-- Directory with two page tabs. -/
def attachedDemoTargets : List ChromeTarget := [demoTab1, demoTab2]

/-- Enumeration reporting the second tab as attached. -/
def attachedDemoInfo : TargetInfo := { targetID := "2", type := "page", attached := true }

/-- Enumeration list holding only that entry. -/
def attachedDemoInfos : List (Option TargetInfo) := [some attachedDemoInfo]

/-- A launch run whose endpoint probe never succeeds inside the retry
window, with every other collaborator succeeding. -/
def launchTimeoutEnv : LaunchEnv :=
  { alreadyRunning := false, chromePath := "/usr/bin/google-chrome", logOpenOk := true,
    startOk := true, probe := fun _ => false, metadataWriteOk := true }

end Chrome

namespace Chrome

/-! ### Helper lemmas -/

/-- filterPageTargets is List.filter with the page predicate. -/
theorem filterPageTargets_eq_filter (T : List ChromeTarget) :
    filterPageTargets T = T.filter isSelectablePage := by
  induction T with
  | nil => rfl
  | cons t rest ih =>
    by_cases h1 : t.type = "page"
    · by_cases h2 : goStartsWith t.url "chrome://" = true
      · simp [filterPageTargets, isSelectablePage, h1, h2, ih, List.filter_cons]
      · by_cases h3 : goStartsWith t.url "chrome-untrusted://" = true
        · simp [filterPageTargets, isSelectablePage, h1, h2, h3, ih, List.filter_cons]
        · simp [filterPageTargets, isSelectablePage, h1, h2, h3, ih, List.filter_cons]
    · simp [filterPageTargets, isSelectablePage, h1, ih, List.filter_cons]

/-- The enqueue invariant: starting at or below capacity, the producer
alone never pushes the queue above capacity. -/
theorem enqueueAll_length_le {E : Type} (es : List E) :
    ∀ q : List E, q.length ≤ monitorQueueCapacity →
      (enqueueAll q es).length ≤ monitorQueueCapacity := by
  induction es with
  | nil => intro q h; exact h
  | cons e es ih =>
    intro q h
    have hstep : (enqueueEvent q e).length ≤ monitorQueueCapacity := by
      unfold enqueueEvent
      split
      · next hlt => simpa using Nat.succ_le_of_lt hlt
      · exact h
    exact ih _ hstep

/-- The polling loop finds no attempt when the probe is false on the whole
window. -/
theorem firstLiveAttempt_none (probe : Nat → Bool) :
    ∀ (fuel i : Nat), (∀ j, j < i + fuel → probe j = false) →
      firstLiveAttempt probe i fuel = none := by
  intro fuel
  induction fuel with
  | zero => intro i _; rfl
  | succ fuel ih =>
    intro i h
    have hp : probe i = false := h i (by omega)
    simp only [firstLiveAttempt, hp]
    exact ih (i + 1) (fun j hj => h j (by omega))

/-- The matching loop is List.find? with the case-insensitive whole-URL
predicate. -/
theorem matchTargetLoop_eq_find (sl : String) :
    ∀ pages : List ChromeTarget,
      matchTargetLoop sl pages =
        match pages.find? (fun t => goStartsWith (goToLower t.url) sl) with
        | some t => t.id
        | none => "" := by
  intro pages
  induction pages with
  | nil => rfl
  | cons t rest ih =>
    by_cases h : goStartsWith (goToLower t.url) sl = true
    · simp [matchTargetLoop, List.find?_cons, h]
    · simp [matchTargetLoop, List.find?_cons, h, ih]

/-- With a non-empty selector, matchTargetBySelector is the first
case-insensitive prefix match. -/
theorem matchTargetBySelector_eq_first (pages : List ChromeTarget) (sel : String)
    (h : sel ≠ "") :
    matchTargetBySelector pages sel = firstUrlMatchId pages sel := by
  simp [matchTargetBySelector, h, firstUrlMatchId, matchTargetLoop_eq_find]

/-- The first prefix match is empty or the id of a matching element. -/
theorem firstUrlMatchId_mem (pages : List ChromeTarget) (sel : String) :
    firstUrlMatchId pages sel = ""
    ∨ ∃ t, t ∈ pages ∧ firstUrlMatchId pages sel = t.id
        ∧ goStartsWith (goToLower t.url) (goToLower sel) = true := by
  unfold firstUrlMatchId
  cases hf : pages.find? (fun t => goStartsWith (goToLower t.url) (goToLower sel)) with
  | none => exact Or.inl rfl
  | some t =>
    have hp : goStartsWith (goToLower t.url) (goToLower sel) = true := by
      have hq := List.find?_some hf
      simpa using hq
    exact Or.inr ⟨t, List.mem_of_find?_eq_some hf, rfl, hp⟩

/-- pageSetContains is existence of a page with that id. -/
theorem pageSetContains_exists (pages : List ChromeTarget) (id : String)
    (h : pageSetContains pages id = true) : ∃ p, p ∈ pages ∧ p.id = id := by
  simp only [pageSetContains, List.any_eq_true, beq_iff_eq] at h
  obtain ⟨p, hp, he⟩ := h
  exact ⟨p, hp, he⟩

/-- The attached loop is List.find? with the attached page-like predicate. -/
theorem attachedInfoLoop_eq_find (pages : List ChromeTarget) :
    ∀ infos : List (Option TargetInfo),
      attachedInfoLoop pages infos =
        match infos.find? (isAttachedPageLikeInfo pages) with
        | some (some i) => some i.targetID
        | _ => none := by
  intro infos
  induction infos with
  | nil => rfl
  | cons o rest ih =>
    cases o with
    | none => simp [attachedInfoLoop, List.find?_cons, isAttachedPageLikeInfo, ih]
    | some i =>
      by_cases h1 : i.type = "page"
      · by_cases h2 : pageSetContains pages i.targetID = true
        · by_cases h3 : i.attached = true
          · simp [attachedInfoLoop, List.find?_cons, isAttachedPageLikeInfo, h1, h2, h3]
          · simp [attachedInfoLoop, List.find?_cons, isAttachedPageLikeInfo, h1, h2, h3, ih]
        · simp [attachedInfoLoop, List.find?_cons, isAttachedPageLikeInfo, h1, h2, ih]
      · simp [attachedInfoLoop, List.find?_cons, isAttachedPageLikeInfo, h1, ih]

/-- The fall-back loop is List.find? with the page-like predicate. -/
theorem anyPageInfoLoop_eq_find (pages : List ChromeTarget) :
    ∀ infos : List (Option TargetInfo),
      anyPageInfoLoop pages infos =
        match infos.find? (isPageLikeInfo pages) with
        | some (some i) => some i.targetID
        | _ => none := by
  intro infos
  induction infos with
  | nil => rfl
  | cons o rest ih =>
    cases o with
    | none => simp [anyPageInfoLoop, List.find?_cons, isPageLikeInfo, ih]
    | some i =>
      by_cases h1 : i.type = "page"
      · by_cases h2 : pageSetContains pages i.targetID = true
        · simp [anyPageInfoLoop, List.find?_cons, isPageLikeInfo, h1, h2]
        · simp [anyPageInfoLoop, List.find?_cons, isPageLikeInfo, h1, h2, ih]
      · simp [anyPageInfoLoop, List.find?_cons, isPageLikeInfo, h1, ih]

/-- An id produced by the attached loop is the id of some filtered page. -/
theorem attachedInfoLoop_contains (pages : List ChromeTarget)
    (infos : List (Option TargetInfo)) (id : String)
    (h : attachedInfoLoop pages infos = some id) :
    pageSetContains pages id = true := by
  rw [attachedInfoLoop_eq_find] at h
  cases hf : infos.find? (isAttachedPageLikeInfo pages) with
  | none => rw [hf] at h; cases h
  | some o =>
    rw [hf] at h
    cases o with
    | none => cases h
    | some i =>
      have hpred := List.find?_some hf
      simp only [isAttachedPageLikeInfo, Bool.and_eq_true] at hpred
      have hid : i.targetID = id := by
        simpa using h
      rw [← hid]
      exact hpred.1.2

/-- An id produced by the fall-back loop is the id of some filtered page. -/
theorem anyPageInfoLoop_contains (pages : List ChromeTarget)
    (infos : List (Option TargetInfo)) (id : String)
    (h : anyPageInfoLoop pages infos = some id) :
    pageSetContains pages id = true := by
  rw [anyPageInfoLoop_eq_find] at h
  cases hf : infos.find? (isPageLikeInfo pages) with
  | none => rw [hf] at h; cases h
  | some o =>
    rw [hf] at h
    cases o with
    | none => cases h
    | some i =>
      have hpred := List.find?_some hf
      simp only [isPageLikeInfo, Bool.and_eq_true] at hpred
      have hid : i.targetID = id := by
        simpa using h
      rw [← hid]
      exact hpred.2

/-- The preferred id is empty or the id of some filtered page. -/
theorem selectPreferredFromInfo_mem (pages : List ChromeTarget)
    (infos : List (Option TargetInfo)) :
    selectPreferredFromInfo pages infos = ""
    ∨ ∃ p, p ∈ pages ∧ p.id = selectPreferredFromInfo pages infos := by
  by_cases hp : pages.isEmpty = true
  · exact Or.inl (by simp [selectPreferredFromInfo, hp])
  · cases ha : attachedInfoLoop pages infos with
    | some id =>
      obtain ⟨p, hpmem, hpid⟩ :=
        pageSetContains_exists pages id (attachedInfoLoop_contains pages infos id ha)
      exact Or.inr ⟨p, hpmem, by simp [selectPreferredFromInfo, hp, ha, hpid]⟩
    | none =>
      cases hb : anyPageInfoLoop pages infos with
      | some id =>
        obtain ⟨p, hpmem, hpid⟩ :=
          pageSetContains_exists pages id (anyPageInfoLoop_contains pages infos id hb)
        exact Or.inr ⟨p, hpmem, by simp [selectPreferredFromInfo, hp, ha, hb, hpid]⟩
      | none => exact Or.inl (by simp [selectPreferredFromInfo, hp, ha, hb])

/-- ResolveTarget is resolveTargetSelected applied to the first non-empty
trimmed selector of the three-tier priority chain. -/
theorem resolveTarget_eq_selected (selector : String) (env : Option (String → String))
    (osEnv : String) (fetched : Except String (List ChromeTarget))
    (infos : Except String (List (Option TargetInfo))) :
    ResolveTarget selector env osEnv fetched infos =
      resolveTargetSelected
        (if goTrimSpace selector ≠ "" then goTrimSpace selector
         else if (match env with | some m => goTrimSpace (m "CHROME_TARGET") | none => "") ≠ "" then
           (match env with | some m => goTrimSpace (m "CHROME_TARGET") | none => "")
         else goTrimSpace osEnv)
        fetched infos := by
  unfold ResolveTarget
  by_cases h1 : goTrimSpace selector = ""
  · cases env with
    | none => simp [h1]
    | some m =>
      by_cases h2 : goTrimSpace (m "CHROME_TARGET") = ""
      · simp [h1, h2]
      · simp [h1, h2]
  · simp [h1]

/-- resolveTargetSelected on a successful fetch never errors. -/
theorem resolveTargetSelected_ok (selected : String) (T : List ChromeTarget)
    (infos : Except String (List (Option TargetInfo))) :
    ∃ r, resolveTargetSelected selected (.ok T) infos = .ok r := by
  simp only [resolveTargetSelected]
  cases hT : filterPageTargets T with
  | nil => exact ⟨("", "no page targets"), by simp only [hT]⟩
  | cons p0 rest =>
    simp only [hT]
    split
    · split
      · exact ⟨_, rfl⟩
      · exact ⟨_, rfl⟩
    · split
      · split
        · exact ⟨_, rfl⟩
        · exact ⟨_, rfl⟩
      · exact ⟨_, rfl⟩

/-- ResolveTarget on a successful fetch never errors. -/
theorem resolveTarget_ok (selector : String) (env : Option (String → String))
    (osEnv : String) (T : List ChromeTarget)
    (infos : Except String (List (Option TargetInfo))) :
    ∃ r, ResolveTarget selector env osEnv (.ok T) infos = .ok r := by
  rw [resolveTarget_eq_selected]
  exact resolveTargetSelected_ok _ T infos

/-- With a non-empty selector, resolveTargetSelected returns the first
case-insensitive prefix match (empty when no page matches). -/
theorem resolveTargetSelected_match (selected : String) (T : List ChromeTarget)
    (infos : Except String (List (Option TargetInfo))) (hs : selected ≠ "") :
    ∃ reason, resolveTargetSelected selected (.ok T) infos
      = .ok (firstUrlMatchId (filterPageTargets T) selected, reason) := by
  simp only [resolveTargetSelected]
  cases hT : filterPageTargets T with
  | nil =>
    refine ⟨"no page targets", ?_⟩
    simp only [hT]
    simp [firstUrlMatchId]
  | cons p0 rest =>
    simp only [hT]
    rw [if_pos hs]
    by_cases hm : matchTargetBySelector (p0 :: rest) selected = ""
    · refine ⟨"no tab URL starts with " ++ goQuote selected ++ ". Available: "
        ++ goJoin ((p0 :: rest).map fun p => p.url) ", ", ?_⟩
      rw [if_neg (by simp [hm])]
      rw [← matchTargetBySelector_eq_first _ _ hs, hm]
    · refine ⟨"matched selector " ++ goQuote selected, ?_⟩
      rw [if_pos hm]
      rw [← matchTargetBySelector_eq_first _ _ hs]

/-- Every id resolveTargetSelected returns is empty or the id of a
filtered page. -/
theorem resolveTargetSelected_id_mem (selected : String) (T : List ChromeTarget)
    (infos : Except String (List (Option TargetInfo))) (id reason : String)
    (h : resolveTargetSelected selected (.ok T) infos = .ok (id, reason)) :
    id = "" ∨ ∃ t, t ∈ filterPageTargets T ∧ id = t.id := by
  simp only [resolveTargetSelected] at h
  cases hT : filterPageTargets T with
  | nil =>
    simp only [hT] at h
    simp only [Except.ok.injEq, Prod.mk.injEq] at h
    exact Or.inl h.1.symm
  | cons p0 rest =>
    simp only [hT] at h
    have hp0 : p0 ∈ (p0 :: rest) := List.mem_cons_self p0 rest
    by_cases hs : selected ≠ ""
    · rw [if_pos hs] at h
      by_cases hm : matchTargetBySelector (p0 :: rest) selected = ""
      · rw [if_neg (by simp [hm])] at h
        simp only [Except.ok.injEq, Prod.mk.injEq] at h
        exact Or.inl h.1.symm
      · rw [if_pos hm] at h
        simp only [Except.ok.injEq, Prod.mk.injEq] at h
        rcases firstUrlMatchId_mem (p0 :: rest) selected with hz | ⟨t, htmem, hteq, _⟩
        · rw [matchTargetBySelector_eq_first _ _ hs, hz] at h
          exact Or.inl h.1.symm
        · refine Or.inr ⟨t, htmem, ?_⟩
          rw [← h.1, matchTargetBySelector_eq_first _ _ hs, hteq]
    · rw [if_neg hs] at h
      cases infos with
      | error e =>
        simp only [Except.ok.injEq, Prod.mk.injEq] at h
        exact Or.inr ⟨p0, hp0, h.1.symm⟩
      | ok is =>
        dsimp only at h
        by_cases hsp : selectPreferredFromInfo (p0 :: rest) is = ""
        · rw [if_neg (by simp [hsp])] at h
          simp only [Except.ok.injEq, Prod.mk.injEq] at h
          exact Or.inr ⟨p0, hp0, h.1.symm⟩
        · rw [if_pos hsp] at h
          simp only [Except.ok.injEq, Prod.mk.injEq] at h
          rcases selectPreferredFromInfo_mem (p0 :: rest) is with hz | ⟨p, hpmem, hpeq⟩
          · exact absurd hz hsp
          · refine Or.inr ⟨p, hpmem, ?_⟩
            rw [← h.1, ← hpeq]

/-! ### Claim theorems -/

/-- C7: filterPageTargets is a pure, deterministic, order-preserving stable
filter: it equals List.filter with the page predicate, its output is a
sublist of the input (original relative order), membership is exactly
input membership plus the predicate (kind "page", URL not starting with
either reserved internal scheme), and no returned target has a URL
starting with a reserved internal scheme. -/
theorem filterPageTargets_spec :
    ∀ (T : List ChromeTarget),
      filterPageTargets T = T.filter isSelectablePage
      ∧ (filterPageTargets T).Sublist T
      ∧ (∀ t, t ∈ filterPageTargets T ↔ t ∈ T ∧ isSelectablePage t = true)
      ∧ ((filterPageTargets T).all
          (fun t => !(goStartsWith t.url "chrome://") && !(goStartsWith t.url "chrome-untrusted://"))
          = true) := by
  intro T
  have he := filterPageTargets_eq_filter T
  refine ⟨he, ?_, ?_, ?_⟩
  · rw [he]; exact List.filter_sublist T
  · intro t; rw [he]; exact List.mem_filter
  · rw [he, List.all_eq_true]
    intro t ht
    have hp := List.of_mem_filter ht
    simp only [isSelectablePage, Bool.and_eq_true] at hp
    simp [hp.1.2, hp.2]

/-- C9: applying filterPageTargets twice equals applying it once. -/
theorem filterPageTargets_idempotent :
    ∀ (T : List ChromeTarget), filterPageTargets (filterPageTargets T) = filterPageTargets T := by
  intro T
  rw [filterPageTargets_eq_filter, filterPageTargets_eq_filter, List.filter_filter]
  congr 1
  funext t
  exact Bool.and_self (isSelectablePage t)

/-- C8: the monitoring event queue has capacity 100; the producer step is
total (an enqueue-or-drop step always exists and the code step realises
it, so the dispatch path never blocks and never raises), each step either
appends the event or leaves the queue unchanged, and without draining the
queue length never exceeds the capacity. -/
theorem monitorQueue_bounded_nonblocking :
    monitorQueueCapacity = 100
    ∧ (∀ (E : Type) (q : List E) (e : E), ∃ q2, ProducerStep q e q2 ∧ enqueueEvent q e = q2)
    ∧ (∀ (E : Type) (q : List E) (e : E), enqueueEvent q e = q ++ [e] ∨ enqueueEvent q e = q)
    ∧ (∀ (E : Type) (es : List E), (enqueueAll [] es).length ≤ monitorQueueCapacity) := by
  refine ⟨rfl, ?_, ?_, ?_⟩
  · intro E q e
    by_cases h : q.length < monitorQueueCapacity
    · exact ⟨q ++ [e], ProducerStep.enqueue q e h, by simp [enqueueEvent, h]⟩
    · exact ⟨q, ProducerStep.drop q e (Nat.le_of_not_lt h), by simp [enqueueEvent, h]⟩
  · intro E q e
    by_cases h : q.length < monitorQueueCapacity
    · exact Or.inl (by simp [enqueueEvent, h])
    · exact Or.inr (by simp [enqueueEvent, h])
  · intro E es
    exact enqueueAll_length_le es [] (by simp)

/-- C5: the release function of a remote-mode context bound to a target
consists of the allocator cancel and the base context cancel only; running
it (once or twice, so a second call is harmless) leaves the tab set of the
browser unchanged, every tab present before release is present after, and
every op it performs is local bookkeeping. -/
theorem remoteRelease_preserves_tabs :
    ∀ (resolvedID : String) (s : SessionState),
      (setupRemoteContext resolvedID).releaseOps
        = [TeardownOp.allocCancel, TeardownOp.baseCtxCancel]
      ∧ (applyTeardowns s (setupRemoteContext resolvedID).releaseOps).tabs = s.tabs
      ∧ (applyTeardowns (applyTeardowns s (setupRemoteContext resolvedID).releaseOps)
          (setupRemoteContext resolvedID).releaseOps).tabs = s.tabs
      ∧ (∀ t, t ∈ (applyTeardowns (applyTeardowns s (setupRemoteContext resolvedID).releaseOps)
          (setupRemoteContext resolvedID).releaseOps).tabs ↔ t ∈ s.tabs)
      ∧ ((setupRemoteContext resolvedID).releaseOps.all isLocalTeardown = true) := by
  intro resolvedID s
  exact ⟨rfl, rfl, rfl, fun t => Iff.rfl, rfl⟩

/-- C6 counterexample: when the freshly spawned process never exposes a
working endpoint inside the 10-attempt polling window, the launch command
prints the may-still-be-starting warning to standard error and the process
exits with status 0, not 1 as claimed. -/
theorem launch_timeout_exit_code_cex :
    launchChrome launchTimeoutEnv
      = { exitCode := 0, stderr := [LaunchMessage.startupWarning] }
    ∧ (launchChrome launchTimeoutEnv).exitCode ≠ 1 :=
  ⟨rfl, by decide⟩

/-- C6 amended: for every launch invocation where the locally spawned
browser process does not expose a working endpoint within the bounded
retry window (10 attempts at fixed short intervals), the command prints a
warning line to standard error saying Chrome may still be starting and
returns normally, so the process exits with status 0. -/
theorem launch_timeout_warns_and_returns :
    ∀ (env : LaunchEnv),
      env.alreadyRunning = false →
      env.chromePath ≠ "" →
      env.logOpenOk = true →
      env.startOk = true →
      (∀ i, i < launchPollAttempts → env.probe i = false) →
      launchChrome env = { exitCode := 0, stderr := [LaunchMessage.startupWarning] } := by
  intro env h1 h2 h3 h4 h5
  have hloop : firstLiveAttempt env.probe 0 launchPollAttempts = none :=
    firstLiveAttempt_none env.probe launchPollAttempts 0 (fun j hj => h5 j (by omega))
  simp [launchChrome, h1, h2, h3, h4, hloop]

/-- C6 witness for the amended theorem at a concrete environment. -/
theorem launch_timeout_warns_and_returns_witness :
    launchChrome launchTimeoutEnv = { exitCode := 0, stderr := [LaunchMessage.startupWarning] } :=
  launch_timeout_warns_and_returns launchTimeoutEnv rfl (by decide) rfl rfl (fun i _ => rfl)

/-- C10: with a selector that is empty after trimming, EnsureTargetContext
returns the input context unchanged with a release that performs no
teardown op and no error, taking no externally visible step (no endpoint
probe, no resolution, no directory fetch, no new tab context); running an
empty op list changes nothing. -/
theorem ensureTargetContext_empty_selector :
    ∀ (ctx : CdpCtx) (selector : String) (chromeRunning : Bool)
      (resolved : Except String (String × String)),
      goTrimSpace selector = "" →
      EnsureTargetContext ctx selector chromeRunning resolved = (.ok (ctx, []), [])
      ∧ (∀ s, applyTeardowns s [] = s) := by
  intro ctx selector chromeRunning resolved h
  refine ⟨?_, fun s => rfl⟩
  simp [EnsureTargetContext, h]

/-- C10 witness: a whitespace-only selector at a concrete context. -/
theorem ensureTargetContext_empty_selector_witness :
    EnsureTargetContext { fromContext := none } "  " true (.error "nope")
      = (.ok ({ fromContext := none }, []), []) :=
  (ensureTargetContext_empty_selector { fromContext := none } "  " true (.error "nope") rfl).1

/-- C1 counterexample: the selector " http://x" is non-empty, no element of
the filtered directory has a URL that case-insensitively starts with it,
yet ResolveTarget returns the non-empty id "1" because the code matches
against the trimmed selector "http://x". -/
theorem resolveTarget_untrimmed_selector_cex :
    (" http://x" : String) ≠ ""
    ∧ firstUrlMatchId (filterPageTargets cexTargetsX) " http://x" = ""
    ∧ ResolveTarget " http://x" none "" (.ok cexTargetsX) (.ok [])
        = .ok ("1", "matched selector " ++ goQuote "http://x")
    ∧ ("1" : String) ≠ "" :=
  ⟨by decide, rfl, rfl, by decide⟩

/-- C1 amended: for every selector whose trimmed form is non-empty and
every target list, ResolveTarget returns the id of the first element of
the filtered directory whose URL case-insensitively starts with the
trimmed selector (empty when none matches); and for every selector the
returned id is empty or the id of some element of the filtered
directory. -/
theorem resolveTarget_trimmed_match :
    ∀ (s : String) (env : Option (String → String)) (osEnv : String)
      (T : List ChromeTarget) (infos : Except String (List (Option TargetInfo))),
      (goTrimSpace s ≠ "" →
        ∃ reason, ResolveTarget s env osEnv (.ok T) infos
          = .ok (firstUrlMatchId (filterPageTargets T) (goTrimSpace s), reason))
      ∧ (∀ id reason, ResolveTarget s env osEnv (.ok T) infos = .ok (id, reason) →
          id = "" ∨ ∃ t, t ∈ filterPageTargets T ∧ id = t.id) := by
  intro s env osEnv T infos
  constructor
  · intro hs
    rw [resolveTarget_eq_selected, if_pos hs]
    exact resolveTargetSelected_match (goTrimSpace s) T infos hs
  · intro id reason h
    rw [resolveTarget_eq_selected] at h
    exact resolveTargetSelected_id_mem _ T infos id reason h

/-- C1 witness: the spec example, where the selector "http://Y.com"
case-insensitively selects the second tab. -/
theorem resolveTarget_trimmed_match_witness :
    goTrimSpace "http://Y.com" ≠ ""
    ∧ ∃ reason, ResolveTarget "http://Y.com" none "" (.ok specExampleTargets) (.ok [])
        = .ok (firstUrlMatchId (filterPageTargets specExampleTargets)
            (goTrimSpace "http://Y.com"), reason) :=
  ⟨by decide,
    (resolveTarget_trimmed_match "http://Y.com" none "" specExampleTargets (.ok [])).1 (by decide)⟩

/-- C2: when the selector chain resolves to empty and page targets exist
(with non-empty ids), ResolveTarget returns the first attached page-like
entry of the richer enumeration; with no attached page-like entry it
returns the first page-like entry; and when the richer enumeration fails
it returns the first filtered directory page.  An enumeration entry is
page-like when its type is "page" and its id is the id of an element of
the filtered directory (isPageLikeInfo). -/
theorem resolveTarget_attached_preference :
    ∀ (selector osEnv : String) (env : Option (String → String))
      (T : List ChromeTarget) (p0 : ChromeTarget) (rest : List ChromeTarget),
      goTrimSpace selector = "" →
      (∀ m, env = some m → goTrimSpace (m "CHROME_TARGET") = "") →
      goTrimSpace osEnv = "" →
      filterPageTargets T = p0 :: rest →
      (∀ t, t ∈ filterPageTargets T → t.id ≠ "") →
      (∀ (is : List (Option TargetInfo)) (i : TargetInfo),
         is.find? (isAttachedPageLikeInfo (p0 :: rest)) = some (some i) →
         ResolveTarget selector env osEnv (.ok T) (.ok is)
           = .ok (i.targetID, "preferred attached tab"))
      ∧ (∀ (is : List (Option TargetInfo)) (i : TargetInfo),
         is.find? (isAttachedPageLikeInfo (p0 :: rest)) = none →
         is.find? (isPageLikeInfo (p0 :: rest)) = some (some i) →
         ResolveTarget selector env osEnv (.ok T) (.ok is)
           = .ok (i.targetID, "preferred attached tab"))
      ∧ (∀ e, ResolveTarget selector env osEnv (.ok T) (.error e)
           = .ok (p0.id, "first page tab")) := by
  intro selector osEnv env T p0 rest hsel henv hos hT hid
  have hred : ∀ (infos : Except String (List (Option TargetInfo))),
      ResolveTarget selector env osEnv (.ok T) infos
        = resolveTargetSelected "" (.ok T) infos := by
    intro infos
    rw [resolveTarget_eq_selected]
    cases env with
    | none => simp [hsel, hos]
    | some m => simp [hsel, hos, henv m rfl]
  refine ⟨?_, ?_, ?_⟩
  · intro is i hfind
    rw [hred]
    have hal : attachedInfoLoop (p0 :: rest) is = some i.targetID := by
      rw [attachedInfoLoop_eq_find, hfind]
    obtain ⟨p, hpmem, hpid⟩ :=
      pageSetContains_exists _ _ (attachedInfoLoop_contains (p0 :: rest) is i.targetID hal)
    have hne : i.targetID ≠ "" := by
      rw [← hpid]
      exact hid p (by rw [hT]; exact hpmem)
    have hsp : selectPreferredFromInfo (p0 :: rest) is = i.targetID := by
      simp [selectPreferredFromInfo, hal]
    simp only [resolveTargetSelected, hT]
    rw [if_neg (by simp)]
    rw [if_pos (by rw [hsp]; exact hne), hsp]
  · intro is i hnone hfind
    rw [hred]
    have hal : attachedInfoLoop (p0 :: rest) is = none := by
      rw [attachedInfoLoop_eq_find, hnone]
    have hbl : anyPageInfoLoop (p0 :: rest) is = some i.targetID := by
      rw [anyPageInfoLoop_eq_find, hfind]
    obtain ⟨p, hpmem, hpid⟩ :=
      pageSetContains_exists _ _ (anyPageInfoLoop_contains (p0 :: rest) is i.targetID hbl)
    have hne : i.targetID ≠ "" := by
      rw [← hpid]
      exact hid p (by rw [hT]; exact hpmem)
    have hsp : selectPreferredFromInfo (p0 :: rest) is = i.targetID := by
      simp [selectPreferredFromInfo, hal, hbl]
    simp only [resolveTargetSelected, hT]
    rw [if_neg (by simp)]
    rw [if_pos (by rw [hsp]; exact hne), hsp]
  · intro e
    rw [hred]
    simp only [resolveTargetSelected, hT]
    rw [if_neg (by simp)]

/-- C2 witness: two ordinary tabs; the enumeration reports the second as
attached, and resolution with an empty selector picks it. -/
theorem resolveTarget_attached_preference_witness :
    ResolveTarget "" none "" (.ok attachedDemoTargets) (.ok attachedDemoInfos)
      = .ok ("2", "preferred attached tab") := by
  have h := resolveTarget_attached_preference "" "" none attachedDemoTargets demoTab1 [demoTab2]
    rfl (fun m hm => Option.noConfusion hm) rfl rfl (by decide)
  exact h.1 attachedDemoInfos attachedDemoInfo rfl

/-- C3: the selector ResolveTarget matches with is the first of the
explicit argument, the override map entry, and the process environment
variable that is non-empty after trimming; in particular with an empty
selector and an override entry "a" the resolution proceeds exactly as for
selector "a", whatever the environment variable holds. -/
theorem resolveTarget_selector_priority :
    (∀ (selector : String) (env : Option (String → String)) (osEnv : String)
       (fetched : Except String (List ChromeTarget))
       (infos : Except String (List (Option TargetInfo))),
      ResolveTarget selector env osEnv fetched infos =
        resolveTargetSelected
          (if goTrimSpace selector ≠ "" then goTrimSpace selector
           else if (match env with
                    | some m => goTrimSpace (m "CHROME_TARGET")
                    | none => "") ≠ "" then
             (match env with
              | some m => goTrimSpace (m "CHROME_TARGET")
              | none => "")
           else goTrimSpace osEnv)
          fetched infos)
    ∧ (∀ (m : String → String) (osEnv : String)
         (fetched : Except String (List ChromeTarget))
         (infos : Except String (List (Option TargetInfo))),
        m "CHROME_TARGET" = "a" →
        ResolveTarget "" (some m) osEnv fetched infos
          = resolveTargetSelected "a" fetched infos) := by
  constructor
  · intro selector env osEnv fetched infos
    exact resolveTarget_eq_selected selector env osEnv fetched infos
  · intro m osEnv fetched infos hm
    rw [resolveTarget_eq_selected]
    have h0 : goTrimSpace "" = "" := rfl
    have ha : goTrimSpace (m "CHROME_TARGET") = "a" := by rw [hm]; rfl
    have hne : ("a" : String) ≠ "" := by decide
    simp [h0, ha, hne]

/-- C3 witness: selector empty, override entry "a", environment variable
"b"; resolution matches against "a". -/
theorem resolveTarget_selector_priority_witness :
    ResolveTarget "" (some fun k => if k = "CHROME_TARGET" then "a" else "") "b"
        (.ok []) (.ok [])
      = resolveTargetSelected "a" (.ok []) (.ok []) :=
  resolveTarget_selector_priority.2
    (fun k => if k = "CHROME_TARGET" then "a" else "") "b" (.ok []) (.ok []) rfl

/-- C4: ResolveTarget errors exactly when the directory fetch errors; with
no page targets it returns an empty id with reason "no page targets" and
no error; and with page targets but no match for a non-empty trimmed
selector it returns an empty id with a reason joining the URLs of all
candidate pages. -/
theorem resolveTarget_error_contract :
    (∀ (selector : String) (env : Option (String → String)) (osEnv : String)
       (fetched : Except String (List ChromeTarget))
       (infos : Except String (List (Option TargetInfo))) (e : String),
      ResolveTarget selector env osEnv fetched infos = .error e ↔ fetched = .error e)
    ∧ (∀ (selector : String) (env : Option (String → String)) (osEnv : String)
         (T : List ChromeTarget) (infos : Except String (List (Option TargetInfo))),
        filterPageTargets T = [] →
        ResolveTarget selector env osEnv (.ok T) infos = .ok ("", "no page targets"))
    ∧ (∀ (selector : String) (env : Option (String → String)) (osEnv : String)
         (T : List ChromeTarget) (infos : Except String (List (Option TargetInfo)))
         (p0 : ChromeTarget) (rest : List ChromeTarget),
        filterPageTargets T = p0 :: rest →
        goTrimSpace selector ≠ "" →
        matchTargetBySelector (p0 :: rest) (goTrimSpace selector) = "" →
        ResolveTarget selector env osEnv (.ok T) infos =
          .ok ("", "no tab URL starts with " ++ goQuote (goTrimSpace selector)
            ++ ". Available: " ++ goJoin ((p0 :: rest).map fun p => p.url) ", ")) := by
  refine ⟨?_, ?_, ?_⟩
  · intro selector env osEnv fetched infos e
    constructor
    · intro h
      cases fetched with
      | error e2 =>
        rw [resolveTarget_eq_selected] at h
        simp only [resolveTargetSelected, Except.error.injEq] at h
        rw [h]
      | ok T =>
        obtain ⟨r, hr⟩ := resolveTarget_ok selector env osEnv T infos
        rw [hr] at h
        exact absurd h (by simp)
    · intro h
      rw [h, resolveTarget_eq_selected]
      simp only [resolveTargetSelected]
  · intro selector env osEnv T infos hT
    rw [resolveTarget_eq_selected]
    simp only [resolveTargetSelected, hT]
  · intro selector env osEnv T infos p0 rest hT hs hm
    rw [resolveTarget_eq_selected, if_pos hs]
    simp only [resolveTargetSelected, hT]
    rw [if_pos hs, if_neg (by simp [hm])]

/-- C4 witness: an empty directory resolves to an empty id with reason
"no page targets" and no error. -/
theorem resolveTarget_error_contract_witness :
    ResolveTarget "" none "" (.ok []) (.ok []) = .ok ("", "no page targets") :=
  resolveTarget_error_contract.2.1 "" none "" [] (.ok []) rfl

end Chrome
